import Mathlib

/-!
Verification development for the Torr repository: a shallow embedding of the
scene backend (`src/blender_bridge.py`), the UI TCP bridge
(`src/ui_bridge_tcp.py`), the socket provider (`src/providers/ui_tcp.py`) and
the two gateway dispatchers (`src/mcp_server.py`, `src/server/mcp_server.py`),
together with theorems about the snapshot store, the diff engine, the batch
mutation engine and the request/response loop.

Modelling conventions:
* Python floats are modelled as rationals (`ℚ`); `round(x, 5)` is modelled as
  rounding of `x * 100000` to an integer (the half-even versus half-up tie
  difference is immaterial to every statement proved here).
* Python dicts that hold the snapshot store are modelled as association lists
  with the newest binding in front, so the first match is the live binding.
* JSON result dicts are modelled as one Lean structure or inductive per shape;
  a dict literal that omits a key is a constructor without that field, so key
  presence and absence stay observable.
-/

namespace Torr

/-! ## Scene state (the mutable Blender state seen by `blender_bridge.py`) -/

/-- A 3-component vector (`obj.location`, `obj.rotation_euler`, `obj.scale`). -/
structure Vec3 where
  x : ℚ
  y : ℚ
  z : ℚ
deriving DecidableEq, Repr

/-- One Blender object (`bpy.data.objects` entry): name, type, the three
transform vectors, and the names of the collections it is linked to
(`obj.users_collection`). -/
structure SceneObject where
  name : String
  otype : String
  location : Vec3
  rotation_euler : Vec3
  scale : Vec3
  users_collection : List String
deriving DecidableEq, Repr

/-- The Blender scene state used by `blender_bridge.py`: scene name, frame
settings, the master collection name (`scene.collection.name`), the linked
objects in order, and the names of `bpy.data.collections`. -/
structure Scene where
  sceneName : String
  frame_start : Int
  frame_end : Int
  frame_current : Int
  masterCollection : String
  objects : List SceneObject
  collections : List String
deriving DecidableEq, Repr

/-! ## Constants (`blender_bridge.py` lines 12-17) -/

def SNAPSHOT_VERSION : String := "1.2"

def DIFF_VERSION : String := "1.1"

def DSL_VERSION : String := "1.0"

def ROUND_DECIMALS : Nat := 5

/-- `_r(x) = round(float(x), 5)`: rounding to five decimal places, modelled on
rationals. -/
def rnd (x : ℚ) : ℚ := ((round (x * 100000) : ℤ) : ℚ) / 100000

/-- `_vec3`: apply `_r` componentwise. -/
def rvec3 (v : Vec3) : Vec3 := ⟨rnd v.x, rnd v.y, rnd v.z⟩

/-! ## Snapshots (`world_observe_compact`) -/

/-- One entry of a snapshot's `objects` list. -/
structure ObjectRecord where
  name : String
  otype : String
  location : Vec3
  rotation_euler : Vec3
  scale : Vec3
  collection : String
deriving DecidableEq, Repr

/-- The dict returned by `world_observe_compact`. -/
structure Snapshot where
  snapshot_version : String
  snapshot_id : Option String
  sceneName : String
  frame : Int
  frame_range : Int × Int
  objects : List ObjectRecord
  summary_text : String
deriving DecidableEq, Repr

/-- `world_observe_compact(snapshot_id)`: capture the current scene.  The
`collection` field of each record is `obj.users_collection[0].name` when the
object is linked somewhere, else `scene.collection.name`. -/
def world_observe_compact (sc : Scene) (snapshot_id : Option String) : Snapshot :=
  { snapshot_version := SNAPSHOT_VERSION
    snapshot_id := snapshot_id
    sceneName := sc.sceneName
    frame := sc.frame_current
    frame_range := (sc.frame_start, sc.frame_end)
    objects := sc.objects.map (fun o =>
      { name := o.name
        otype := o.otype
        location := rvec3 o.location
        rotation_euler := rvec3 o.rotation_euler
        scale := rvec3 o.scale
        collection := o.users_collection.headD sc.masterCollection })
    summary_text := toString sc.objects.length ++ " objects in scene." }

/-! ## The diff engine (`world_observe_diff`) -/

/-- The keys of a Python dict built by inserting each record under its name:
first-occurrence order, duplicates collapsed (`_obj_map(snap).keys()`). -/
def keysFirst : List String → List String
  | [] => []
  | x :: xs => x :: keysFirst (xs.filter (fun y => y ≠ x))
termination_by l => l.length
decreasing_by
  simp only [List.length_cons]
  exact Nat.lt_succ_of_le (List.length_filter_le _ _)

/-- The key list of `_obj_map(snap)`. -/
def objKeys (s : Snapshot) : List String := keysFirst (s.objects.map (·.name))

/-- Dict lookup in `_obj_map(snap)`: the last record inserted under a name
wins, so look from the back. -/
def objLookup (s : Snapshot) (k : String) : Option ObjectRecord :=
  s.objects.reverse.find? (fun o => o.name = k)

/-- Python `sorted` on strings. -/
def sortStr (l : List String) : List String := l.mergeSort (fun a b => a ≤ b)

/-- `_transform_tuple`: the (location, rotation, scale) triple of a record. -/
structure TransformTriple where
  loc : Vec3
  rot : Vec3
  sca : Vec3
deriving DecidableEq, Repr

def transformTuple (o : ObjectRecord) : TransformTriple :=
  ⟨o.location, o.rotation_euler, o.scale⟩

/-- One `transforms_changed` entry: the name and both full triples. -/
structure TransformChange where
  name : String
  fromT : TransformTriple
  toT : TransformTriple
deriving DecidableEq, Repr

/-- One `collections_changed` entry. -/
structure CollectionChange where
  name : String
  fromC : String
  toC : String
deriving DecidableEq, Repr

/-- The dict returned by `world_observe_diff`: either the not-found error dict
(`{"ok": False, "diff_version", "error", "from", "to"}`, which carries no diff
fields at all) or the full diff dict. -/
inductive DiffResult
  | notFound (diff_version : String) (error : String) (srcId dstId : String)
  | found (diff_version : String) (srcId dstId : String)
      (objects_added objects_removed : List String)
      (transforms_changed : List TransformChange)
      (collections_changed : List CollectionChange)
      (object_count_from object_count_to : Nat)
      (warnings : List String)
deriving DecidableEq, Repr

/-- The `ok` key of the diff result dict. -/
def DiffResult.okFlag : DiffResult → Bool
  | .notFound _ _ _ _ => false
  | .found _ _ _ _ _ _ _ _ _ _ => true

/-- The `objects_added` key, when present. -/
def DiffResult.addedF : DiffResult → Option (List String)
  | .notFound _ _ _ _ => none
  | .found _ _ _ a _ _ _ _ _ _ => some a

/-- The `objects_removed` key, when present. -/
def DiffResult.removedF : DiffResult → Option (List String)
  | .notFound _ _ _ _ => none
  | .found _ _ _ _ r _ _ _ _ _ => some r

/-- The `transforms_changed` key, when present. -/
def DiffResult.transformsF : DiffResult → Option (List TransformChange)
  | .notFound _ _ _ _ => none
  | .found _ _ _ _ _ t _ _ _ _ => some t

/-- The `collections_changed` key, when present. -/
def DiffResult.collectionsF : DiffResult → Option (List CollectionChange)
  | .notFound _ _ _ _ => none
  | .found _ _ _ _ _ _ c _ _ _ => some c

/-- The `error` key, present only on the not-found dict. -/
def DiffResult.errorF : DiffResult → Option String
  | .notFound _ e _ _ => some e
  | .found _ _ _ _ _ _ _ _ _ _ => none

/-- The snapshot store `_snapshots`, newest binding first. -/
def storeGet : List (String × Snapshot) → String → Option Snapshot
  | [], _ => none
  | (k', v) :: rest, k => if k' = k then some v else storeGet rest k

/-- `world_observe_diff(from_id, to_id)` over the snapshot store.  Missing id
on either side yields the error dict; otherwise added/removed names, changed
transform triples, changed collection memberships, and the two object counts
are computed from the name-keyed maps. -/
def world_observe_diff (snaps : List (String × Snapshot)) (from_id to_id : String) :
    DiffResult :=
  match storeGet snaps from_id, storeGet snaps to_id with
  | some a, some b =>
      let aKeys := objKeys a
      let bKeys := objKeys b
      let added := sortStr (bKeys.filter (fun k => ¬ (k ∈ aKeys)))
      let removed := sortStr (aKeys.filter (fun k => ¬ (k ∈ bKeys)))
      let inter := sortStr (aKeys.filter (fun k => k ∈ bKeys))
      let transforms := inter.filterMap (fun k =>
        match objLookup a k, objLookup b k with
        | some oa, some ob =>
            if transformTuple oa ≠ transformTuple ob then
              some ⟨k, transformTuple oa, transformTuple ob⟩
            else none
        | _, _ => none)
      let colls := inter.filterMap (fun k =>
        match objLookup a k, objLookup b k with
        | some oa, some ob =>
            if oa.collection ≠ ob.collection then
              some ⟨k, oa.collection, ob.collection⟩
            else none
        | _, _ => none)
      .found DIFF_VERSION from_id to_id added removed transforms colls
        aKeys.length bKeys.length []
  | _, _ => .notFound DIFF_VERSION "unknown snapshot_id" from_id to_id

/-! ## Snapshot id allocation (`_next_snapshot_id`)

`f"S{n}"` renders the counter in decimal.  `natDecimal` is that decimal
rendering (most significant digit first), built on Mathlib's verified
`Nat.digits`. -/

def natDecimal (n : Nat) : String :=
  if n = 0 then "0" else ((Nat.digits 10 n).reverse.map Nat.digitChar).asString

/-- The id string allocated when the counter has been bumped to `n`. -/
def mkSid (n : Nat) : String := "S" ++ natDecimal n

theorem digitChar_inj_aux : ∀ x < 10, ∀ y < 10,
    Nat.digitChar x = Nat.digitChar y → x = y := by decide

theorem digitChar_inj_lt {x y : Nat} (hx : x < 10) (hy : y < 10)
    (h : Nat.digitChar x = Nat.digitChar y) : x = y :=
  digitChar_inj_aux x hx y hy h

theorem map_digitChar_inj : ∀ (l₁ l₂ : List Nat), (∀ d ∈ l₁, d < 10) →
    (∀ d ∈ l₂, d < 10) → l₁.map Nat.digitChar = l₂.map Nat.digitChar → l₁ = l₂ := by
  intro l₁
  induction l₁ with
  | nil => intro l₂ _ _ h; cases l₂ <;> simp_all
  | cons a t ih =>
    intro l₂ h₁ h₂ h
    cases l₂ with
    | nil => simp_all
    | cons b t₂ =>
      simp only [List.map_cons, List.cons.injEq] at h
      have hab : a = b :=
        digitChar_inj_lt (h₁ a (by simp)) (h₂ b (by simp)) h.1
      have := ih t₂ (fun d hd => h₁ d (by simp [hd])) (fun d hd => h₂ d (by simp [hd])) h.2
      simp [hab, this]

theorem natDecimal_inj : Function.Injective natDecimal := by
  intro a b h
  unfold natDecimal at h
  by_cases ha : a = 0 <;> by_cases hb : b = 0
  · simp [ha, hb]
  · exfalso
    simp only [ha, if_pos rfl, if_neg hb] at h
    have hdata := congrArg String.data h
    simp only [List.asString] at hdata
    have : ('0' : Char) :: [] = (Nat.digits 10 b).reverse.map Nat.digitChar := hdata
    have hd : (Nat.digits 10 b).reverse.map Nat.digitChar = [Nat.digitChar 0] := this.symm
    have hrev : (Nat.digits 10 b).reverse = [0] := by
      apply map_digitChar_inj
      · intro d hd'
        exact Nat.digits_lt_base (by norm_num) (List.mem_reverse.mp hd')
      · intro d hd'
        simp at hd'
        omega
      · simpa using hd
    have hdig : Nat.digits 10 b = [0] := by
      have := congrArg List.reverse hrev
      simpa using this
    have := Nat.ofDigits_digits 10 b
    rw [hdig] at this
    simp [Nat.ofDigits] at this
    exact hb this.symm
  · exfalso
    simp only [hb, if_pos rfl, if_neg ha] at h
    have hdata := congrArg String.data h
    simp only [List.asString] at hdata
    have hd : (Nat.digits 10 a).reverse.map Nat.digitChar = [Nat.digitChar 0] := hdata
    have hrev : (Nat.digits 10 a).reverse = [0] := by
      apply map_digitChar_inj
      · intro d hd'
        exact Nat.digits_lt_base (by norm_num) (List.mem_reverse.mp hd')
      · intro d hd'
        simp at hd'
        omega
      · simpa using hd
    have hdig : Nat.digits 10 a = [0] := by
      have := congrArg List.reverse hrev
      simpa using this
    have := Nat.ofDigits_digits 10 a
    rw [hdig] at this
    simp [Nat.ofDigits] at this
    exact ha this.symm
  · simp only [if_neg ha, if_neg hb] at h
    have hdata := congrArg String.data h
    simp only [List.asString] at hdata
    have hrev : (Nat.digits 10 a).reverse = (Nat.digits 10 b).reverse := by
      apply map_digitChar_inj _ _ _ _ hdata
      · intro d hd'
        exact Nat.digits_lt_base (by norm_num) (List.mem_reverse.mp hd')
      · intro d hd'
        exact Nat.digits_lt_base (by norm_num) (List.mem_reverse.mp hd')
    have hdig : Nat.digits 10 a = Nat.digits 10 b := by
      have := congrArg List.reverse hrev
      simpa using this
    have h₁ := Nat.ofDigits_digits 10 a
    have h₂ := Nat.ofDigits_digits 10 b
    rw [hdig] at h₁
    rw [h₂] at h₁
    exact h₁.symm

theorem mkSid_inj : Function.Injective mkSid := by
  intro a b h
  apply natDecimal_inj
  have hdata := congrArg String.data h
  simp only [mkSid, String.data_append] at hdata
  have htail : (natDecimal a).data = (natDecimal b).data :=
    List.append_cancel_left hdata
  cases hda : natDecimal a with
  | mk da =>
    cases hdb : natDecimal b with
    | mk db =>
      rw [hda, hdb] at htail
      simp only at htail
      simp [htail]

/-! ## DSL operation handlers (`_dsl_*` in `blender_bridge.py`)

`args` dicts are modelled as a record of the keys the handlers read; a key the
client did not send is `none`.  Vector arguments arrive as number lists of any
length; reading a missing index raises, which the model tracks explicitly. -/

/-- The argument dict of one batch op (`item["args"]`). -/
structure OpArgs where
  type : Option String := none
  name : Option String := none
  location : Option (List ℚ) := none
  rotation_euler : Option (List ℚ) := none
  scale : Option (List ℚ) := none
  collection : Option String := none
  object : Option String := none
deriving DecidableEq, Repr

/-- Outcome of one handler as seen by `world_mutate`: the `ok` flag of the
returned dict, or the error string (from `r["error"]` or from `repr(ex)` when
the handler raised). -/
inductive OpOutcome
  | ok
  | err (msg : String)
deriving DecidableEq, Repr

def OpOutcome.isOk : OpOutcome → Bool
  | .ok => true
  | .err _ => false

/-- `bpy.data.objects.get(name)`: the (unique) object with that name. -/
def findObj (sc : Scene) (name : String) : Option SceneObject :=
  sc.objects.find? (fun o => o.name = name)

/-- Mutate the first list element satisfying `p` in place. -/
def modifyFirst (p : α → Bool) (f : α → α) : List α → List α
  | [] => []
  | x :: xs => if p x then f x :: xs else x :: modifyFirst p f xs

/-- Assign `v.x = l[0]; v.y = l[1]; v.z = l[2]` coordinate by coordinate: a
short list leaves a prefix assigned before the index error. -/
def setVec3 (v : Vec3) (l : List ℚ) : Vec3 :=
  match l with
  | [] => v
  | [a] => { v with x := a }
  | [a, b] => { v with x := a, y := b }
  | a :: b :: c :: _ => { v with x := a, y := b, z := c }

/-- Whether all three index reads succeed. -/
def vec3Ok (l : List ℚ) : Bool := 3 ≤ l.length

/-- Blender's `.001`-style numeric suffix. -/
def blSuffix (i : Nat) : String :=
  "." ++ (if i < 10 then "00" ++ toString i
          else if i < 100 then "0" ++ toString i else toString i)

/-- Blender name collision handling: a new datablock whose requested name is
taken gets the first free `.NNN`-suffixed variant. -/
def uniqueName (used : List String) (base : String) : String :=
  if base ∈ used then
    match (List.range (used.length + 1)).find?
        (fun i => ¬ ((base ++ blSuffix (i + 1)) ∈ used)) with
    | some i => base ++ blSuffix (i + 1)
    | none => base
  else base

/-- `_ensure_collection(name)`: create the data collection if absent (it is
also linked under the scene collection, which this model does not track
separately). -/
def ensure_collection (sc : Scene) (name : String) : Scene :=
  if name ∈ sc.collections then sc
  else { sc with collections := sc.collections ++ [name] }

/-- `_link_object_to_collection`: link the named object to the collection
unless already linked (non-destructive: the master link is kept). -/
def link_object_to_collection (sc : Scene) (objName colName : String) : Scene :=
  let f : SceneObject → SceneObject := fun o =>
    if colName ∈ o.users_collection then o
    else { o with users_collection := o.users_collection ++ [colName] }
  { sc with objects := modifyFirst (fun o => o.name = objName) f sc.objects }

/-- Python `str.lower()` (ASCII case folding), written over the character
data so it evaluates. -/
def pyLower (s : String) : String := String.mk (s.data.map Char.toLower)

/-- `_dsl_object_create_primitive`: only `"cube"` is supported; the new object
is linked to the scene collection, its location set inside `try/except: pass`
(a short list leaves a partially assigned location), and optionally linked to
a named collection (a falsy collection name is skipped). -/
def dsl_object_create_primitive (args : OpArgs) (sc : Scene) : Scene × OpOutcome :=
  let prim_type := pyLower (args.type.getD "cube")
  let name := args.name.getD "Object"
  let location := args.location.getD [0, 0, 0]
  if prim_type ≠ "cube" then
    (sc, .err ("primitive type not supported in v1: " ++ prim_type))
  else
    let objName := uniqueName (sc.objects.map (·.name)) name
    let obj : SceneObject :=
      { name := objName
        otype := "MESH"
        location := setVec3 ⟨0, 0, 0⟩ location
        rotation_euler := ⟨0, 0, 0⟩
        scale := ⟨1, 1, 1⟩
        users_collection := [sc.masterCollection] }
    let sc1 := { sc with objects := sc.objects ++ [obj] }
    match args.collection with
    | none => (sc1, .ok)
    | some c =>
        if c = "" then (sc1, .ok)
        else
          let sc2 := ensure_collection sc1 c
          (link_object_to_collection sc2 objName c, .ok)

/-- The message `repr(ex)` of the index error raised by a short vector. -/
def idxErrMsg : String := "IndexError('list index out of range')"

/-- One `if "field" in args:` block of `_dsl_object_set_transform`: update the
named object's field and report whether all three index reads succeeded. -/
def applyField (sc : Scene) (name : String) (fld : Option (List ℚ))
    (set : SceneObject → Vec3 → SceneObject) (get : SceneObject → Vec3) :
    Scene × Bool :=
  match fld with
  | none => (sc, true)
  | some l =>
      let f : SceneObject → SceneObject := fun o => set o (setVec3 (get o) l)
      ({ sc with objects := modifyFirst (fun o => o.name = name) f sc.objects },
       vec3Ok l)

/-- `_dsl_object_set_transform`: look the object up, then update location,
rotation and scale in that order, each only when present in `args`; an index
error aborts the remaining updates but keeps the partial assignment. -/
def dsl_object_set_transform (args : OpArgs) (sc : Scene) : Scene × OpOutcome :=
  let name := args.name.getD ""
  if (findObj sc name).isNone then
    (sc, .err ("object not found: " ++ name))
  else
    let r1 := applyField sc name args.location
      (fun o v => { o with location := v }) (·.location)
    if ¬ r1.2 then (r1.1, .err idxErrMsg)
    else
      let r2 := applyField r1.1 name args.rotation_euler
        (fun o v => { o with rotation_euler := v }) (·.rotation_euler)
      if ¬ r2.2 then (r2.1, .err idxErrMsg)
      else
        let r3 := applyField r2.1 name args.scale
          (fun o v => { o with scale := v }) (·.scale)
        if ¬ r3.2 then (r3.1, .err idxErrMsg)
        else (r3.1, .ok)

/-- `_dsl_object_delete`. -/
def dsl_object_delete (args : OpArgs) (sc : Scene) : Scene × OpOutcome :=
  let name := args.name.getD ""
  if (findObj sc name).isNone then
    (sc, .err ("object not found: " ++ name))
  else
    ({ sc with objects := sc.objects.eraseP (fun o => o.name = name) }, .ok)

/-- `_dsl_collection_create`. -/
def dsl_collection_create (args : OpArgs) (sc : Scene) : Scene × OpOutcome :=
  let name := args.name.getD ""
  if name = "" then (sc, .err "collection name required")
  else (ensure_collection sc name, .ok)

/-- `_dsl_collection_link_object`: note the collection is created before the
object lookup, so it persists even when the op then fails. -/
def dsl_collection_link_object (args : OpArgs) (sc : Scene) : Scene × OpOutcome :=
  let col_name := args.collection.getD ""
  let obj_name := args.object.getD ""
  if col_name = "" ∨ obj_name = "" then
    (sc, .err "collection and object required")
  else
    let sc1 := ensure_collection sc col_name
    if (findObj sc1 obj_name).isNone then
      (sc1, .err ("object not found: " ++ obj_name))
    else
      (link_object_to_collection sc1 obj_name col_name, .ok)

/-! ## The batch mutation engine (`world_mutate`) -/

/-- One batch entry: `op = str(item.get("op", ""))` and its args dict. -/
structure BatchItem where
  op : String
  args : OpArgs
deriving DecidableEq, Repr

/-- Dispatch of one op inside the `world_mutate` loop. -/
def applyItem (sc : Scene) (it : BatchItem) : Scene × OpOutcome :=
  if it.op = "object.create_primitive" then dsl_object_create_primitive it.args sc
  else if it.op = "object.set_transform" then dsl_object_set_transform it.args sc
  else if it.op = "object.delete" then dsl_object_delete it.args sc
  else if it.op = "collection.create" then dsl_collection_create it.args sc
  else if it.op = "collection.link_object" then dsl_collection_link_object it.args sc
  else (sc, .err "op not supported in v3")

/-- One entry of the `errors` list of a batch result. -/
structure ErrEntry where
  index : Nat
  op : String
  error : String
deriving DecidableEq, Repr

/-- The `world_mutate` loop from position `i`: final scene, `applied` count,
and the ordered `errors` list. -/
def runBatchAux (sc : Scene) (i : Nat) : List BatchItem → Scene × Nat × List ErrEntry
  | [] => (sc, 0, [])
  | it :: rest =>
      let r := applyItem sc it
      let rec' := runBatchAux r.1 (i + 1) rest
      match r.2 with
      | .ok => (rec'.1, rec'.2.1 + 1, rec'.2.2)
      | .err m => (rec'.1, rec'.2.1, ⟨i, it.op, m⟩ :: rec'.2.2)

/-- The per-op success flags of a batch, in execution order against the
evolving scene. -/
def batchFlags (sc : Scene) : List BatchItem → List Bool
  | [] => []
  | it :: rest =>
      let r := applyItem sc it
      r.2.isOk :: batchFlags r.1 rest

/-- The scene obtained by attempting every op in order (no rollback). -/
def scenesFold (sc : Scene) (items : List BatchItem) : Scene :=
  items.foldl (fun s it => (applyItem s it).1) sc

/-- The dict returned by `world_mutate`: the version-rejection dict
(`{"ok": False, "error", "supported"}`, which carries no `applied`, `errors`,
`warnings` or `snapshot_id` keys) or the batch result dict. -/
inductive MutateResult
  | unsupported (error supported : String)
  | result (ok : Bool) (dsl_version : String) (applied : Nat)
      (errors : List ErrEntry) (warnings : List String) (snapshot_id : String)
deriving DecidableEq, Repr

/-- The `applied` key of a mutate result dict, when present. -/
def MutateResult.appliedF : MutateResult → Option Nat
  | .unsupported _ _ => none
  | .result _ _ a _ _ _ => some a

/-- The `ok` key of a mutate result dict. -/
def MutateResult.okFlag : MutateResult → Bool
  | .unsupported _ _ => false
  | .result ok _ _ _ _ _ => ok

/-- The `error` key, present only on the version-rejection dict. -/
def MutateResult.errorF : MutateResult → Option String
  | .unsupported e _ => some e
  | .result _ _ _ _ _ _ => none

/-- The backend session: `_snapshot_counter`, `_snapshots`, and the live
scene. -/
structure Session where
  counter : Nat
  snapshots : List (String × Snapshot)
  scene : Scene
deriving DecidableEq, Repr

/-- `world_mutate(dsl_version, batch)`: reject a wrong version before any op
runs; otherwise attempt every op, then capture exactly one snapshot and store
it under a fresh id. -/
def world_mutate (s : Session) (dsl_version : String) (batch : List BatchItem) :
    Session × MutateResult :=
  if dsl_version ≠ DSL_VERSION then
    (s, .unsupported ("unsupported dsl_version " ++ dsl_version) DSL_VERSION)
  else
    let r := runBatchAux s.scene 0 batch
    let c' := s.counter + 1
    let sid := mkSid c'
    let snap := world_observe_compact r.1 (some sid)
    ({ counter := c', snapshots := (sid, snap) :: s.snapshots, scene := r.1 },
     .result r.2.2.isEmpty DSL_VERSION r.2.1 r.2.2 [] sid)

/-! ## `world_reset` and the bridge's request loop (`main`) -/

/-- `bootstrap_clean_scene`: remove all objects (collections persist). -/
def bootstrap_clean_scene (sc : Scene) : Scene := { sc with objects := [] }

/-- The dict returned by `world_reset`. -/
structure ResetResult where
  ok : Bool
  seed : Int
  snapshot_id : String
  object_count : Nat
deriving DecidableEq, Repr

/-- `world_reset(seed)`: clean the scene, reset the frame range, then allocate
a fresh id, capture and store a snapshot, and return its id. -/
def world_reset (s : Session) (seed : Int) : Session × ResetResult :=
  let sc1 := { bootstrap_clean_scene s.scene with
                frame_start := 1, frame_end := 250, frame_current := 1 }
  let c' := s.counter + 1
  let sid := mkSid c'
  let snap := world_observe_compact sc1 (some sid)
  ({ counter := c', snapshots := (sid, snap) :: s.snapshots, scene := sc1 },
   { ok := true, seed := seed, snapshot_id := sid, object_count := 0 })

/-- `int(args.get("seed", 0))`: either an int-convertible value or one whose
conversion raises. -/
inductive SeedArg
  | intVal (n : Int)
  | notInt
deriving DecidableEq, Repr

/-- `args.get("batch")`: a list, a non-list value, or absent. -/
inductive BatchArg
  | list (items : List BatchItem)
  | notList
deriving DecidableEq, Repr

/-- A parsed request dict, keyed by its `tool` field.  `other` covers any tool
string the dispatch does not know, including a missing `tool` key (`None`). -/
inductive BridgeReq
  | reset (seed : Option SeedArg)
  | observe
  | observeDiff (fromArg toArg : Option String)
  | mutate (dsl_version : Option String) (batch : Option BatchArg)
  | other (tool : Option String)
deriving DecidableEq, Repr

/-- One line read from stdin: blank after stripping, undecodable (or not a
dict, so attribute access raises), or a parsed request. -/
inductive BridgeLine
  | blank
  | badJson (msg : String)
  | request (r : BridgeReq)
deriving DecidableEq, Repr

/-- One line written to stdout by the bridge. -/
inductive BridgeResp
  | resetR (r : ResetResult)
  | observeR (s : Snapshot)
  | diffR (d : DiffResult)
  | mutateR (m : MutateResult)
  | errR (msg : String)
deriving DecidableEq, Repr

/-- `str(x)` for an optional string: Python renders a missing value as
`"None"`. -/
def pyStr : Option String → String
  | some s => s
  | none => "None"

/-- One iteration of the bridge's `main` loop: the session update and the
lines written for that input line.  Every failure path is caught and answered
(`except Exception: write_json({"ok": False, ...})`); only a blank line is
skipped without a response. -/
def bridgeStep (s : Session) : BridgeLine → Session × List BridgeResp
  | .blank => (s, [])
  | .badJson m => (s, [.errR m])
  | .request r =>
      match r with
      | .reset seedArg =>
          match seedArg with
          | some .notInt => (s, [.errR "ValueError('invalid literal for int()')"])
          | some (.intVal n) =>
              let r := world_reset s n
              (r.1, [.resetR r.2])
          | none =>
              let r := world_reset s 0
              (r.1, [.resetR r.2])
      | .observe =>
          let c' := s.counter + 1
          let sid := mkSid c'
          let snap := world_observe_compact s.scene (some sid)
          ({ s with counter := c', snapshots := (sid, snap) :: s.snapshots },
           [.observeR snap])
      | .observeDiff f t =>
          (s, [.diffR (world_observe_diff s.snapshots (pyStr f) (pyStr t))])
      | .mutate dv b =>
          match b.getD (.list []) with
          | .notList => (s, [.errR "batch must be a list"])
          | .list items =>
              let r := world_mutate s (dv.getD "") items
              (r.1, [.mutateR r.2])
      | .other tool => (s, [.errR ("unknown tool " ++ pyStr tool)])

/-- The whole request loop over a list of input lines. -/
def runBridge (s : Session) : List BridgeLine → Session × List BridgeResp
  | [] => (s, [])
  | l :: ls =>
      let r := bridgeStep s l
      let rest := runBridge r.1 ls
      (rest.1, r.2 ++ rest.2)

/-- The snapshot ids a response line hands to the caller. -/
def respSids : BridgeResp → List String
  | .resetR r => [r.snapshot_id]
  | .observeR snap =>
      match snap.snapshot_id with
      | some sid => [sid]
      | none => []
  | .mutateR (.result _ _ _ _ _ sid) => [sid]
  | .mutateR (.unsupported _ _) => []
  | .diffR _ => []
  | .errR _ => []

/-- All snapshot ids issued to the caller over a trace. -/
def traceSids (resps : List BridgeResp) : List String :=
  resps.flatMap respSids

/-- The keys currently stored in `_snapshots`. -/
def storeKeys (s : Session) : List String := s.snapshots.map Prod.fst

/-! ## The UI bridge (`ui_bridge_tcp.py`): `world_mutate` handler -/

/-- The args dict of one UI-bridge batch item. -/
structure UiOpArgs where
  name : Option String := none
  size : Option ℚ := none
  location : Option (List ℚ) := none
  rotation_euler : Option (List ℚ) := none
  scale : Option (List ℚ) := none
deriving DecidableEq, Repr

/-- One UI-bridge batch item: `(item or {}).get("op")` and its args. -/
structure UiBatchItem where
  op : Option String
  args : UiOpArgs
deriving DecidableEq, Repr

/-- The `params` dict of a `world_mutate` request to the UI bridge. -/
structure UiMutateParams where
  dsl_version : Option String
  batch : List UiBatchItem
deriving DecidableEq, Repr

/-- One entry of the UI bridge's `errors` list: the version-rejection entry
(`op="world_mutate"`, `error_type="unsupported_dsl_version"`, args echoing the
whole params dict) or a per-op failure entry. -/
inductive UiErrEntry
  | versionErr (args : UiMutateParams)
  | opErr (op : Option String) (args : UiOpArgs) (error_type error_message : String)
deriving DecidableEq, Repr

/-- The `error_type` of a UI error entry. -/
def UiErrEntry.errType : UiErrEntry → String
  | .versionErr _ => "unsupported_dsl_version"
  | .opErr _ _ t _ => t

/-- The dict the UI bridge returns for `world_mutate`. -/
structure UiMutateResult where
  ok : Bool
  dsl_version : Option String
  applied : Nat
  errors : List UiErrEntry
  warnings : List String
deriving DecidableEq, Repr

/-- Python truthiness of an optional string (`if not name:`). -/
def strTruthy : Option String → Bool
  | some s => s ≠ ""
  | none => false

/-- A whole-vector assignment (`obj.location = loc`): atomic, raising when the
sequence does not have exactly three components. -/
def uiAssign (objs : List SceneObject) (name : String) (fld : Option (List ℚ))
    (set : SceneObject → Vec3 → SceneObject) : List SceneObject × Bool :=
  match fld with
  | none => (objs, true)
  | some [a, b, c] =>
      (modifyFirst (fun o => o.name = name) (fun o => set o ⟨a, b, c⟩) objs, true)
  | some _ => (objs, false)

/-- One op of the UI bridge loop, against the UI scene's object list.  Returns
the new object list and `none` on success, or the `(error_type, message)` of
the exception caught by the per-op handler.  The cube's `size` argument only
affects mesh geometry, which the model does not track. -/
def uiApplyOp (objs : List SceneObject) (op : Option String) (args : UiOpArgs) :
    List SceneObject × Option (String × String) :=
  if op = some "add_cube" then
    if ¬ strTruthy args.name then (objs, some ("ValueError", "name required"))
    else
      let location := args.location.getD [0, 0, 0]
      if location.length ≠ 3 then
        (objs, some ("TypeError", "expected a sequence of 3 floats"))
      else
        let obj : SceneObject :=
          { name := uniqueName (objs.map (·.name)) (args.name.getD "")
            otype := "MESH"
            location := setVec3 ⟨0, 0, 0⟩ location
            rotation_euler := ⟨0, 0, 0⟩
            scale := ⟨1, 1, 1⟩
            users_collection := [] }
        (objs ++ [obj], none)
  else if op = some "set_transform" then
    if ¬ strTruthy args.name then (objs, some ("ValueError", "name required"))
    else
      let name := args.name.getD ""
      if (objs.find? (fun o => o.name = name)).isNone then
        (objs, some ("ValueError", "object not found: " ++ name))
      else
        let r1 := uiAssign objs name args.location (fun o v => { o with location := v })
        if ¬ r1.2 then (r1.1, some ("ValueError", "expected a sequence of 3 floats"))
        else
          let r2 := uiAssign r1.1 name args.rotation_euler
            (fun o v => { o with rotation_euler := v })
          if ¬ r2.2 then (r2.1, some ("ValueError", "expected a sequence of 3 floats"))
          else
            let r3 := uiAssign r2.1 name args.scale (fun o v => { o with scale := v })
            if ¬ r3.2 then (r3.1, some ("ValueError", "expected a sequence of 3 floats"))
            else (r3.1, none)
  else if op = some "delete_object" then
    if ¬ strTruthy args.name then (objs, some ("ValueError", "name required"))
    else
      let name := args.name.getD ""
      if (objs.find? (fun o => o.name = name)).isNone then
        (objs, some ("ValueError", "object not found: " ++ name))
      else
        (objs.eraseP (fun o => o.name = name), none)
  else
    (objs, some ("ValueError", "unknown op: " ++ pyStr op))

/-- The UI bridge's `world_mutate` loop: continue on error, collecting error
entries. -/
def uiMutateLoop (objs : List SceneObject) :
    List UiBatchItem → List SceneObject × Nat × List UiErrEntry
  | [] => (objs, 0, [])
  | it :: rest =>
      let r := uiApplyOp objs it.op it.args
      let rec' := uiMutateLoop r.1 rest
      match r.2 with
      | none => (rec'.1, rec'.2.1 + 1, rec'.2.2)
      | some e => (rec'.1, rec'.2.1, .opErr it.op it.args e.1 e.2 :: rec'.2.2)

/-- The UI bridge's `world_mutate` handler (`_handle_request`, method
`world_mutate`): a version other than exactly `"1.0"` rejects the whole batch
before the loop, with `applied: 0` and a single `unsupported_dsl_version`
error entry. -/
def uiWorldMutate (p : UiMutateParams) (objs : List SceneObject) :
    List SceneObject × UiMutateResult :=
  if p.dsl_version ≠ some "1.0" then
    (objs,
     { ok := false
       dsl_version := p.dsl_version
       applied := 0
       errors := [.versionErr p]
       warnings := [] })
  else
    let r := uiMutateLoop objs p.batch
    (r.1,
     { ok := r.2.2.isEmpty
       dsl_version := some "1.0"
       applied := r.2.1
       errors := r.2.2
       warnings := [] })

/-! ## The socket provider (`providers/ui_tcp.py`) -/

/-- The wire requests `_send` can issue, one TCP connection each. -/
inductive WireParams
  | pingP
  | resetP (seed : Int)
  | observeP (level : String)
  | mutateP (dsl_version : Option String) (batch : Option (List UiBatchItem))
deriving DecidableEq, Repr

/-- The projection of a wire response dict the provider inspects: its `ok` key
and its `snapshot_id` key, each possibly absent. -/
structure WireResp where
  okField : Option Bool
  sidField : Option String
deriving DecidableEq, Repr

/-- Provider-local snapshot-id counter state (`self._snap_i`). -/
structure UiTcpState where
  snap_i : Nat
deriving DecidableEq, Repr

/-- `_new_snapshot_id`: bump the local counter and render `U<n>`. -/
def uNewSid (st : UiTcpState) : UiTcpState × String :=
  ({ snap_i := st.snap_i + 1 }, "U" ++ natDecimal (st.snap_i + 1))

/-- The `ok`/`snapshot_id` injection performed by `call` on wire results. -/
def injectOkSid (st : UiTcpState) (r : WireResp) : UiTcpState × WireResp :=
  let r1 := if r.okField = none then { r with okField := some true } else r
  if r1.sidField = none then
    let ns := uNewSid st
    (ns.1, { r1 with sidField := some ns.2 })
  else (st, r1)

/-- The result of one provider `call`. -/
inductive UiCallResult
  | wire (r : WireResp)
  | infoR (ping : WireResp)
  | healthR (ping : WireResp)
  | notSupported (error_message : String)
  | unknownTool (error_message : String)
deriving DecidableEq, Repr

/-- The `ok` key of a provider call result. -/
def UiCallResult.okFlag : UiCallResult → Option Bool
  | .wire r => r.okField
  | .infoR p => some (p.okField.getD true)
  | .healthR p => some (p.okField.getD false)
  | .notSupported _ => some false
  | .unknownTool _ => some false

/-- The `error_type` key of a provider call result, when present. -/
def UiCallResult.errType : UiCallResult → Option String
  | .notSupported _ => some "not_supported"
  | .unknownTool _ => some "unknown_tool"
  | _ => none

/-- The tool args dict handed to the provider. -/
structure UiToolArgs where
  seed : Option Int := none
  level : Option String := none
  dsl_version : Option String := none
  batch : Option (List UiBatchItem) := none
  from_id : Option String := none
  to_id : Option String := none
deriving DecidableEq, Repr

/-- `UiTcpBlenderProvider.call`: the oracle stands for the remote peer's
response; the middle component collects the wire requests actually sent —
every one of them opens a fresh TCP connection. -/
def uiTcpCall (oracle : WireParams → WireResp) (st : UiTcpState)
    (tool : String) (args : UiToolArgs) :
    UiTcpState × List WireParams × UiCallResult :=
  if tool = "system_info" then
    (st, [.pingP], .infoR (oracle .pingP))
  else if tool = "world_health" then
    (st, [.pingP], .healthR (oracle .pingP))
  else if tool = "world_reset" then
    let seed := args.seed.getD 0
    let r := injectOkSid st (oracle (.resetP seed))
    (r.1, [.resetP seed], .wire r.2)
  else if tool = "world_observe" then
    let level := args.level.getD "compact"
    let r := injectOkSid st (oracle (.observeP level))
    (r.1, [.observeP level], .wire r.2)
  else if tool = "world_mutate" then
    let r := injectOkSid st (oracle (.mutateP args.dsl_version args.batch))
    (r.1, [.mutateP args.dsl_version args.batch], .wire r.2)
  else if tool = "world_observe_diff" then
    (st, [], .notSupported "observe_diff not supported for ui_tcp provider yet.")
  else
    (st, [], .unknownTool ("Unknown tool: " ++ tool))

/-- The provider's direct `world_observe_diff` method: returns the
not-supported dict without touching the network or any snapshot state. -/
def uiTcp_world_observe_diff (from_id to_id : String) : UiCallResult :=
  .notSupported "observe_diff not supported for ui_tcp provider yet."

/-! ## The gateway dispatchers -/

/-- First-match assoc-list lookup (Python dict lookup; keys here are
distinct). -/
def lookupStr : List (String × String) → String → Option String
  | [], _ => none
  | (k', v) :: rest, k => if k' = k then some v else lookupStr rest k

/-- `tool_aliases` of the legacy gateway (`src/mcp_server.py`). -/
def tool_aliases : List (String × String) :=
  [("world.observe", "world_observe"),
   ("world.reset", "world_reset"),
   ("world.mutate", "world_mutate"),
   ("world.observe_diff", "world_observe_diff")]

/-- `tool_provider_names` of the legacy gateway. -/
def tool_provider_names : List (String × String) :=
  [("world_observe", "world.observe"),
   ("world_reset", "world.reset"),
   ("world_mutate", "world.mutate"),
   ("world_observe_diff", "world.observe_diff")]

/-- `allowed_tools = set(tool_provider_names.keys())`. -/
def legacy_allowed_tools : List String := tool_provider_names.map Prod.fst

/-- The tool names of the legacy gateway's `tools_list()` catalog. -/
def legacyCatalog : List String :=
  ["world_observe", "world_reset", "world_mutate", "world_observe_diff"]

/-- What handling a `tools/call` does with a tool name: reject it, or forward
the unchanged arguments to the provider under a provider-side tool name. -/
inductive GwDispatch
  | unknownTool (message : String)
  | providerCall (tool : String)
deriving DecidableEq, Repr

/-- The legacy gateway's `tools/call` name handling: alias resolution first,
then the allow-list check, then the provider-name translation. -/
def legacyToolsCall (name : String) : GwDispatch :=
  let resolved := (lookupStr tool_aliases name).getD name
  if resolved ∈ legacy_allowed_tools then
    .providerCall ((lookupStr tool_provider_names resolved).getD resolved)
  else
    .unknownTool ("Unknown tool: " ++ resolved)

/-- `allowed_tools` of the current gateway (`src/server/mcp_server.py`). -/
def server_allowed_tools : List String :=
  ["world_observe", "world_reset", "world_mutate", "world_observe_diff",
   "system_info", "world_health"]

/-- The tool names of the current gateway's `tools_list()` catalog (sorted by
name before being returned). -/
def serverCatalog : List String := sortStr server_allowed_tools

/-- The current gateway's `tools/call` name handling: a bare allow-list check,
no alias resolution. -/
def serverToolsCall (name : String) : GwDispatch :=
  if name ∈ server_allowed_tools then .providerCall name
  else .unknownTool ("Unknown tool: " ++ name)

/-! ## Concrete sessions and data used to instantiate the theorems -/

/-- The scene right after bridge startup (`bootstrap_clean_scene` plus the
factory scene's name, frame range and master collection). -/
def initialScene : Scene :=
  { sceneName := "Scene"
    frame_start := 1
    frame_end := 250
    frame_current := 1
    masterCollection := "Scene Collection"
    objects := []
    collections := [] }

/-- The backend session at startup: counter `0`, empty store. -/
def initialSession : Session :=
  { counter := 0, snapshots := [], scene := initialScene }

/-- A three-op batch whose middle op references a non-existent object. -/
def demoBatch : List BatchItem :=
  [⟨"object.create_primitive", { name := some "A" }⟩,
   ⟨"object.set_transform", { name := some "Missing" }⟩,
   ⟨"object.create_primitive", { name := some "B" }⟩]

def demoRecordA : ObjectRecord :=
  { name := "A"
    otype := "MESH"
    location := ⟨0, 0, 0⟩
    rotation_euler := ⟨0, 0, 0⟩
    scale := ⟨1, 1, 1⟩
    collection := "Scene Collection" }

def demoRecordB : ObjectRecord := { demoRecordA with name := "B" }

def demoSnapA : Snapshot :=
  { snapshot_version := SNAPSHOT_VERSION
    snapshot_id := some "S1"
    sceneName := "Scene"
    frame := 1
    frame_range := (1, 250)
    objects := [demoRecordA]
    summary_text := "1 objects in scene." }

def demoSnapB : Snapshot :=
  { demoSnapA with snapshot_id := some "S2", objects := [demoRecordB] }

/-- A store holding two snapshots, newest first. -/
def demoStore : List (String × Snapshot) := [("S2", demoSnapB), ("S1", demoSnapA)]

/-- A scene with two objects, used to instantiate the set-transform claim. -/
def demoSceneAB : Scene :=
  { initialScene with objects :=
      [{ name := "A"
         otype := "MESH"
         location := ⟨0, 0, 0⟩
         rotation_euler := ⟨0, 0, 0⟩
         scale := ⟨1, 1, 1⟩
         users_collection := ["Scene Collection"] },
       { name := "B"
         otype := "MESH"
         location := ⟨7, 8, 9⟩
         rotation_euler := ⟨0, 0, 0⟩
         scale := ⟨1, 1, 1⟩
         users_collection := ["Scene Collection"] }] }

/-- A set-transform args dict carrying only `name` and `location`. -/
def demoTransformArgs : OpArgs :=
  { name := some "A", location := some [5, 6, 7] }

/-! ## Helper lemmas about sorting -/

theorem sortStr_mem {x : String} {l : List String} : x ∈ sortStr l ↔ x ∈ l :=
  (List.mergeSort_perm l _).mem_iff

theorem sortStr_sorted (l : List String) :
    (sortStr l).Pairwise (fun x y : String => x ≤ y) := by
  have htrans : ∀ a b c : String,
      (fun a b : String => (a ≤ b : Bool)) a b = true →
      (fun a b : String => (a ≤ b : Bool)) b c = true →
      (fun a b : String => (a ≤ b : Bool)) a c = true := by
    intro a b c hab hbc
    simp only [decide_eq_true_eq] at hab hbc ⊢
    exact le_trans hab hbc
  have htotal : ∀ a b : String,
      ((fun a b : String => (a ≤ b : Bool)) a b ||
       (fun a b : String => (a ≤ b : Bool)) b a) = true := by
    intro a b
    simp only [Bool.or_eq_true, decide_eq_true_eq]
    exact le_total a b
  have h := List.sorted_mergeSort htrans htotal l
  exact h.imp (fun hab => of_decide_eq_true hab)

/-! ## Claim theorems: the diff engine -/

/-- Claim C4: calling `world_observe_diff` with a `from` or `to` id that is not
stored yields exactly the structured not-found dict — `ok:false`, the
`unknown snapshot_id` message, the two ids echoed — and that dict carries none
of the diff fields (`objects_added`, `objects_removed`, `transforms_changed`,
`collections_changed`); the function is total, so no exception escapes. -/
theorem observe_diff_unknown_id_structured_error
    (snaps : List (String × Snapshot)) (from_id to_id : String)
    (h : storeGet snaps from_id = none ∨ storeGet snaps to_id = none) :
    world_observe_diff snaps from_id to_id =
      .notFound DIFF_VERSION "unknown snapshot_id" from_id to_id ∧
    (world_observe_diff snaps from_id to_id).okFlag = false ∧
    (world_observe_diff snaps from_id to_id).errorF = some "unknown snapshot_id" ∧
    (world_observe_diff snaps from_id to_id).addedF = none ∧
    (world_observe_diff snaps from_id to_id).removedF = none ∧
    (world_observe_diff snaps from_id to_id).transformsF = none ∧
    (world_observe_diff snaps from_id to_id).collectionsF = none := by
  have hnf : world_observe_diff snaps from_id to_id =
      .notFound DIFF_VERSION "unknown snapshot_id" from_id to_id := by
    unfold world_observe_diff
    rcases h with h | h
    · rw [h]
    · rw [h]
      cases storeGet snaps from_id
      · rfl
      · rfl
  refine ⟨hnf, ?_, ?_, ?_, ?_, ?_, ?_⟩ <;> rw [hnf] <;> rfl

/-- Witness for C4: the empty store resolves no id at all. -/
theorem observe_diff_unknown_id_structured_error_witness :
    (storeGet ([] : List (String × Snapshot)) "S1" = none ∨
     storeGet ([] : List (String × Snapshot)) "S9" = none) ∧
    world_observe_diff [] "S1" "S9" =
      .notFound DIFF_VERSION "unknown snapshot_id" "S1" "S9" :=
  ⟨Or.inl rfl,
   (observe_diff_unknown_id_structured_error [] "S1" "S9" (Or.inl rfl)).1⟩

/-- Claim C5: for two stored snapshots, `objects_added` and `objects_removed`
are disjoint sorted lists, and `objects_added(from,to)` equals
`objects_removed(to,from)`. -/
theorem diff_added_removed_disjoint_sorted
    (snaps : List (String × Snapshot)) (fI tI : String) (a b : Snapshot)
    (ha : storeGet snaps fI = some a) (hb : storeGet snaps tI = some b) :
    ∃ la lr,
      (world_observe_diff snaps fI tI).addedF = some la ∧
      (world_observe_diff snaps fI tI).removedF = some lr ∧
      la.Disjoint lr ∧
      la.Pairwise (fun x y : String => x ≤ y) ∧
      lr.Pairwise (fun x y : String => x ≤ y) ∧
      (world_observe_diff snaps tI fI).removedF = some la := by
  refine ⟨sortStr ((objKeys b).filter (fun k => ¬ (k ∈ objKeys a))),
          sortStr ((objKeys a).filter (fun k => ¬ (k ∈ objKeys b))),
          ?_, ?_, ?_, ?_, ?_, ?_⟩
  · unfold world_observe_diff
    rw [ha, hb]
    rfl
  · unfold world_observe_diff
    rw [ha, hb]
    rfl
  · intro x hx hx'
    rw [sortStr_mem, List.mem_filter] at hx hx'
    exact (of_decide_eq_true hx.2) hx'.1
  · exact sortStr_sorted _
  · exact sortStr_sorted _
  · unfold world_observe_diff
    rw [ha, hb]
    rfl

/-- Witness for C5: the demo store holds `S1` and `S2`. -/
theorem diff_added_removed_disjoint_sorted_witness :
    storeGet demoStore "S1" = some demoSnapA ∧
    storeGet demoStore "S2" = some demoSnapB ∧
    ∃ la lr,
      (world_observe_diff demoStore "S1" "S2").addedF = some la ∧
      (world_observe_diff demoStore "S1" "S2").removedF = some lr ∧
      la.Disjoint lr ∧
      la.Pairwise (fun x y : String => x ≤ y) ∧
      lr.Pairwise (fun x y : String => x ≤ y) ∧
      (world_observe_diff demoStore "S2" "S1").removedF = some la :=
  ⟨rfl, rfl,
   diff_added_removed_disjoint_sorted demoStore "S1" "S2" demoSnapA demoSnapB rfl rfl⟩

/-! ## Claim theorem: the socket provider's diff -/

/-- Claim C8: on the socket-backed provider, `world_observe_diff` — both the
direct method and dispatch through `call` — returns the `not_supported` error
dict with `ok:false` immediately, sending nothing over the wire (the sent-
request list is empty, so no connection is opened) and consulting no snapshot
store. -/
theorem uiTcp_observe_diff_fails_fast (oracle : WireParams → WireResp)
    (st : UiTcpState) (args : UiToolArgs) (from_id to_id : String) :
    uiTcpCall oracle st "world_observe_diff" args =
      (st, [], .notSupported "observe_diff not supported for ui_tcp provider yet.") ∧
    uiTcp_world_observe_diff from_id to_id =
      .notSupported "observe_diff not supported for ui_tcp provider yet." ∧
    (uiTcpCall oracle st "world_observe_diff" args).2.1 = [] ∧
    (uiTcpCall oracle st "world_observe_diff" args).2.2.okFlag = some false ∧
    (uiTcpCall oracle st "world_observe_diff" args).2.2.errType = some "not_supported" ∧
    (uiTcpCall oracle st "world_observe_diff" args).1 = st :=
  ⟨rfl, rfl, rfl, rfl, rfl, rfl⟩

/-! ## Claim theorems: gateway alias resolution (C6) -/

/-- Counterexample for C6: the current gateway (`src/server/mcp_server.py`)
performs no alias resolution, so the legacy dotted name `world.mutate` is
rejected as an unknown tool while the canonical `world_mutate` dispatches —
the alias does not yield the same result as the canonical name. -/
theorem server_gateway_rejects_dotted_alias :
    serverToolsCall "world.mutate" = .unknownTool "Unknown tool: world.mutate" ∧
    serverToolsCall "world_mutate" = .providerCall "world_mutate" ∧
    serverToolsCall "world.mutate" ≠ serverToolsCall "world_mutate" := by
  refine ⟨?_, ?_, ?_⟩ <;> decide

/-- Claim C6 (amended): in the legacy gateway (`src/mcp_server.py`) every
catalog tool has a dotted alias that is resolved before the allow-list check,
and invoking the alias dispatches exactly as the canonical name does; the
current gateway (`src/server/mcp_server.py`) resolves no aliases — every
dotted alias is rejected there as an unknown tool. -/
theorem legacy_gateway_resolves_aliases :
    (∀ t ∈ legacyCatalog, ∃ aName,
        aName ≠ t ∧
        lookupStr tool_aliases aName = some t ∧
        legacyToolsCall aName = legacyToolsCall t ∧
        ∃ pt, legacyToolsCall t = .providerCall pt) ∧
    (∀ pr ∈ tool_aliases,
        serverToolsCall pr.1 = .unknownTool ("Unknown tool: " ++ pr.1)) := by
  constructor
  · intro t ht
    simp only [legacyCatalog, List.mem_cons, List.mem_singleton,
      List.not_mem_nil, or_false] at ht
    rcases ht with rfl | rfl | rfl | rfl
    · exact ⟨"world.observe", by decide, by decide, by decide, "world.observe", by decide⟩
    · exact ⟨"world.reset", by decide, by decide, by decide, "world.reset", by decide⟩
    · exact ⟨"world.mutate", by decide, by decide, by decide, "world.mutate", by decide⟩
    · exact ⟨"world.observe_diff", by decide, by decide, by decide,
        "world.observe_diff", by decide⟩
  · intro pr hpr
    simp only [tool_aliases, List.mem_cons, List.not_mem_nil, or_false] at hpr
    rcases hpr with rfl | rfl | rfl | rfl <;> decide

/-- Witness for C6 (amended): instantiated at `world_mutate` and its alias. -/
theorem legacy_gateway_resolves_aliases_witness :
    ("world_mutate" ∈ legacyCatalog) ∧
    (∃ aName, aName ≠ "world_mutate" ∧
      lookupStr tool_aliases aName = some "world_mutate" ∧
      legacyToolsCall aName = legacyToolsCall "world_mutate" ∧
      ∃ pt, legacyToolsCall "world_mutate" = .providerCall pt) :=
  ⟨by decide, legacy_gateway_resolves_aliases.1 "world_mutate" (by decide)⟩

/-! ## Claim theorems: DSL version rejection (C2) -/

/-- Counterexample for C2: on the headless backend, a batch declaring
`dsl_version "2.0"` is rejected with a dict that has no `applied` key at all —
the result does not report `applied == 0` as the claim states. -/
theorem mutate_version_reject_no_applied_field :
    (world_mutate initialSession "2.0"
        [⟨"object.create_primitive", { name := some "A" }⟩]).2.appliedF ≠ some 0 ∧
    (world_mutate initialSession "2.0"
        [⟨"object.create_primitive", { name := some "A" }⟩]).2 =
      .unsupported "unsupported dsl_version 2.0" "1.0" := by
  refine ⟨?_, ?_⟩ <;> decide

/-- Claim C2 (amended): a batch declaring any version other than `"1.0"` is
rejected before any operation runs.  The headless backend returns the whole
session unchanged (no op applied, no snapshot captured) with a single error
string naming the unsupported version and no `applied` count; the TCP UI
bridge leaves its scene unchanged and reports `applied = 0` with exactly one
`unsupported_dsl_version` error entry. -/
theorem mutate_version_reject_before_any_op
    (s : Session) (v : String) (batch : List BatchItem) (hv : v ≠ DSL_VERSION) :
    world_mutate s v batch =
      (s, .unsupported ("unsupported dsl_version " ++ v) DSL_VERSION) ∧
    (world_mutate s v batch).2.appliedF = none ∧
    (world_mutate s v batch).2.errorF = some ("unsupported dsl_version " ++ v) ∧
    (∀ (p : UiMutateParams) (objs : List SceneObject), p.dsl_version = some v →
        uiWorldMutate p objs =
          (objs, { ok := false
                   dsl_version := some v
                   applied := 0
                   errors := [.versionErr p]
                   warnings := [] })) := by
  have hmain : world_mutate s v batch =
      (s, .unsupported ("unsupported dsl_version " ++ v) DSL_VERSION) := by
    unfold world_mutate
    rw [if_pos hv]
  refine ⟨hmain, by rw [hmain]; rfl, by rw [hmain]; rfl, ?_⟩
  intro p objs hp
  have hne : p.dsl_version ≠ some DSL_VERSION := by
    rw [hp]
    intro hc
    exact hv (Option.some.injEq v DSL_VERSION ▸ congrArg (Option.getD · "") hc)
  unfold uiWorldMutate
  rw [if_pos (by rw [hp] at hne ⊢; exact hne), hp]

/-- Witness for C2 (amended): instantiated at version `"2.0"` with a one-op
batch on both backends. -/
theorem mutate_version_reject_before_any_op_witness :
    ("2.0" ≠ DSL_VERSION) ∧
    world_mutate initialSession "2.0"
        [⟨"object.create_primitive", { name := some "A" }⟩] =
      (initialSession, .unsupported "unsupported dsl_version 2.0" DSL_VERSION) :=
  ⟨by decide,
   (mutate_version_reject_before_any_op initialSession "2.0"
      [⟨"object.create_primitive", { name := some "A" }⟩] (by decide)).1⟩

/-! ## Claim theorem: one response line per request (C7) -/

/-- Claim C7: the scene backend answers every non-blank input line — any tool,
any argument shape, parse failures, and argument conversions that raise — with
exactly one response line: never zero, never more than one. -/
theorem bridge_one_response_per_request (s : Session) (l : BridgeLine)
    (h : l ≠ .blank) :
    ((bridgeStep s l).2).length = 1 := by
  cases l with
  | blank => exact absurd rfl h
  | badJson m => rfl
  | request r =>
      cases r with
      | reset seed =>
          match seed with
          | none => rfl
          | some (.intVal n) => rfl
          | some .notInt => rfl
      | observe => rfl
      | observeDiff f t => rfl
      | mutate dv b =>
          match b with
          | none => rfl
          | some (.list items) => rfl
          | some .notList => rfl
      | other tool => rfl

/-- Witness for C7: a mutate request whose batch argument is not a list. -/
theorem bridge_one_response_per_request_witness :
    (BridgeLine.request (.mutate (some "1.0") (some .notList)) ≠ .blank) ∧
    ((bridgeStep initialSession
        (.request (.mutate (some "1.0") (some .notList)))).2).length = 1 :=
  ⟨by decide,
   bridge_one_response_per_request initialSession
     (.request (.mutate (some "1.0") (some .notList))) (by decide)⟩

/-! ## Helper lemmas about the batch loop -/

theorem batchFlags_length (items : List BatchItem) : ∀ sc : Scene,
    (batchFlags sc items).length = items.length := by
  induction items with
  | nil => intro sc; rfl
  | cons it rest ih =>
      intro sc
      simp only [batchFlags, List.length_cons, ih]

theorem runBatchAux_scene_eq (items : List BatchItem) : ∀ (sc : Scene) (i : Nat),
    (runBatchAux sc i items).1 = scenesFold sc items := by
  induction items with
  | nil => intro sc i; rfl
  | cons it rest ih =>
      intro sc i
      have hfold : scenesFold sc (it :: rest) = scenesFold (applyItem sc it).1 rest := rfl
      rw [hfold, ← ih (applyItem sc it).1 (i + 1)]
      simp only [runBatchAux]
      cases (applyItem sc it).2 <;> rfl

theorem runBatchAux_applied_eq (items : List BatchItem) : ∀ (sc : Scene) (i : Nat),
    (runBatchAux sc i items).2.1 = (batchFlags sc items).count true := by
  induction items with
  | nil => intro sc i; rfl
  | cons it rest ih =>
      intro sc i
      simp only [runBatchAux, batchFlags]
      cases h : (applyItem sc it).2 with
      | ok =>
          simp only [OpOutcome.isOk, List.count_cons, ih]
          simp
      | err m =>
          simp only [OpOutcome.isOk, List.count_cons, ih]
          simp

theorem runBatchAux_errs_allok (items : List BatchItem) : ∀ (sc : Scene) (i : Nat),
    batchFlags sc items = List.replicate items.length true →
    (runBatchAux sc i items).2.2 = [] := by
  induction items with
  | nil => intro sc i _; rfl
  | cons it rest ih =>
      intro sc i hfl
      simp only [batchFlags, List.length_cons, List.replicate, List.cons.injEq] at hfl
      obtain ⟨h0, htl⟩ := hfl
      simp only [runBatchAux]
      cases h : (applyItem sc it).2 with
      | ok => exact ih (applyItem sc it).1 (i + 1) htl
      | err m =>
          rw [h] at h0
          simp [OpOutcome.isOk] at h0

theorem runBatchAux_errs_single (items : List BatchItem) :
    ∀ (sc : Scene) (i k : Nat) (hk : k < items.length),
    batchFlags sc items =
      List.replicate k true ++ false :: List.replicate (items.length - k - 1) true →
    ∃ msg, (runBatchAux sc i items).2.2 = [⟨i + k, (items.get ⟨k, hk⟩).op, msg⟩] := by
  induction items with
  | nil =>
      intro sc i k hk
      exact absurd hk (by simp)
  | cons it rest ih =>
      intro sc i k hk hfl
      cases k with
      | zero =>
          have hlen : (it :: rest).length - 0 - 1 = rest.length := by simp
          rw [hlen] at hfl
          simp only [batchFlags, List.replicate, List.nil_append, List.cons.injEq] at hfl
          obtain ⟨h0, htl⟩ := hfl
          cases h : (applyItem sc it).2 with
          | ok =>
              rw [h] at h0
              simp [OpOutcome.isOk] at h0
          | err m =>
              refine ⟨m, ?_⟩
              have hrest := runBatchAux_errs_allok rest (applyItem sc it).1 (i + 1) htl
              simp only [runBatchAux, h, hrest]
              simp
      | succ k' =>
          have hk' : k' < rest.length := by
            simp only [List.length_cons] at hk
            omega
          have hlen : (it :: rest).length - (k' + 1) - 1 = rest.length - k' - 1 := by
            simp only [List.length_cons]
            omega
          rw [hlen] at hfl
          simp only [batchFlags, List.replicate, List.cons_append,
            List.cons.injEq] at hfl
          obtain ⟨h0, htl⟩ := hfl
          cases h : (applyItem sc it).2 with
          | err m =>
              rw [h] at h0
              simp [OpOutcome.isOk] at h0
          | ok =>
              obtain ⟨msg, hmsg⟩ := ih (applyItem sc it).1 (i + 1) k' hk' htl
              refine ⟨msg, ?_⟩
              simp only [runBatchAux, h, hmsg]
              have : i + 1 + k' = i + (k' + 1) := by omega
              simp [this]

/-! ## Claim theorem: continue-on-error batch semantics (C1) -/

/-- Claim C1: for a `dsl_version "1.0"` batch of `N` ops in which exactly the
op at index `k` fails (expressed as the run's success-flag list being all-true
except at `k`), `world_mutate` reports `applied = N - 1`, exactly one error
entry carrying index `k` and that op's name, `ok = false`, and a fresh
snapshot id under which a snapshot of the post-batch scene was stored exactly
once after all ops were attempted; the final scene is the left fold of every
op in order, so later ops were attempted and earlier ones were not rolled
back. -/
theorem mutate_single_failure_continue_on_error
    (s : Session) (batch : List BatchItem) (k : Nat) (hk : k < batch.length)
    (hfl : batchFlags s.scene batch =
      List.replicate k true ++ false ::
        List.replicate (batch.length - k - 1) true) :
    ∃ msg,
      world_mutate s DSL_VERSION batch =
        ({ counter := s.counter + 1
           snapshots := (mkSid (s.counter + 1),
             world_observe_compact (scenesFold s.scene batch)
               (some (mkSid (s.counter + 1)))) :: s.snapshots
           scene := scenesFold s.scene batch },
         .result false DSL_VERSION (batch.length - 1)
           [⟨k, (batch.get ⟨k, hk⟩).op, msg⟩] [] (mkSid (s.counter + 1))) := by
  obtain ⟨msg, herr⟩ := runBatchAux_errs_single batch s.scene 0 k hk hfl
  have happ : (runBatchAux s.scene 0 batch).2.1 = batch.length - 1 := by
    rw [runBatchAux_applied_eq, hfl]
    simp [List.count_append, List.count_replicate_self, List.count_cons]
    omega
  have hsc := runBatchAux_scene_eq batch s.scene 0
  refine ⟨msg, ?_⟩
  unfold world_mutate
  rw [if_neg (fun hc => hc rfl)]
  simp only [herr, happ, hsc, Nat.zero_add, List.isEmpty_cons]

/-- Witness for C1: a three-op batch whose middle op references a missing
object; the run's flag list is `[true, false, true]`. -/
theorem mutate_single_failure_continue_on_error_witness :
    (1 < demoBatch.length) ∧
    batchFlags initialSession.scene demoBatch =
      List.replicate 1 true ++ false ::
        List.replicate (demoBatch.length - 1 - 1) true ∧
    ∃ msg,
      world_mutate initialSession DSL_VERSION demoBatch =
        ({ counter := initialSession.counter + 1
           snapshots := (mkSid (initialSession.counter + 1),
             world_observe_compact (scenesFold initialSession.scene demoBatch)
               (some (mkSid (initialSession.counter + 1)))) ::
             initialSession.snapshots
           scene := scenesFold initialSession.scene demoBatch },
         .result false DSL_VERSION (demoBatch.length - 1)
           [⟨1, (demoBatch.get ⟨1, by decide⟩).op, msg⟩] []
           (mkSid (initialSession.counter + 1))) :=
  ⟨by decide, by decide,
   mutate_single_failure_continue_on_error initialSession demoBatch 1
     (by decide) (by decide)⟩

/-! ## Helper lemmas about the request loop's id issuance -/

theorem map_range_one_mkSid (c : Nat) :
    List.map (fun i => mkSid (c + 1 + i)) (List.range 1) = [mkSid (c + 1)] := by
  rw [show List.range 1 = [0] from rfl]
  simp

theorem bridgeStep_sids_eq (s : Session) (l : BridgeLine) :
    traceSids (bridgeStep s l).2 =
      (List.range ((bridgeStep s l).1.counter - s.counter)).map
        (fun i => mkSid (s.counter + 1 + i)) ∧
    s.counter ≤ (bridgeStep s l).1.counter := by
  cases l with
  | blank => exact ⟨by simp [bridgeStep, traceSids], le_refl _⟩
  | badJson m => exact ⟨by simp [bridgeStep, traceSids, respSids], le_refl _⟩
  | request r =>
      cases r with
      | reset seed =>
          match seed with
          | none =>
              exact ⟨by simp [bridgeStep, traceSids, respSids, world_reset,
                        map_range_one_mkSid],
                     Nat.le_succ _⟩
          | some (.intVal n) =>
              exact ⟨by simp [bridgeStep, traceSids, respSids, world_reset,
                        map_range_one_mkSid],
                     Nat.le_succ _⟩
          | some .notInt =>
              exact ⟨by simp [bridgeStep, traceSids, respSids], le_refl _⟩
      | observe =>
          exact ⟨by simp [bridgeStep, traceSids, respSids, world_observe_compact,
                    map_range_one_mkSid],
                 Nat.le_succ _⟩
      | observeDiff f t =>
          exact ⟨by simp [bridgeStep, traceSids, respSids], le_refl _⟩
      | mutate dv b =>
          match b with
          | some .notList =>
              exact ⟨by simp [bridgeStep, traceSids, respSids], le_refl _⟩
          | none =>
              by_cases hv : (dv.getD "") ≠ DSL_VERSION
              · constructor
                · simp [bridgeStep, traceSids, respSids, world_mutate, hv]
                · simp [bridgeStep, world_mutate, hv]
              · constructor
                · simp [bridgeStep, traceSids, respSids, world_mutate, hv,
                    map_range_one_mkSid]
                · simp [bridgeStep, world_mutate, hv]
          | some (.list items) =>
              by_cases hv : (dv.getD "") ≠ DSL_VERSION
              · constructor
                · simp [bridgeStep, traceSids, respSids, world_mutate, hv]
                · simp [bridgeStep, world_mutate, hv]
              · constructor
                · simp [bridgeStep, traceSids, respSids, world_mutate, hv,
                    map_range_one_mkSid]
                · simp [bridgeStep, world_mutate, hv]
      | other tool =>
          exact ⟨by simp [bridgeStep, traceSids, respSids], le_refl _⟩

theorem runBridge_sids_eq (lines : List BridgeLine) : ∀ s : Session,
    traceSids (runBridge s lines).2 =
      (List.range ((runBridge s lines).1.counter - s.counter)).map
        (fun i => mkSid (s.counter + 1 + i)) ∧
    s.counter ≤ (runBridge s lines).1.counter := by
  induction lines with
  | nil =>
      intro s
      exact ⟨by simp [runBridge, traceSids], le_refl _⟩
  | cons l ls ih =>
      intro s
      obtain ⟨hstep, hle1⟩ := bridgeStep_sids_eq s l
      obtain ⟨ihs, hle2⟩ := ih (bridgeStep s l).1
      have hfinal : (runBridge s (l :: ls)).1 = (runBridge (bridgeStep s l).1 ls).1 := rfl
      have hout : (runBridge s (l :: ls)).2 =
          (bridgeStep s l).2 ++ (runBridge (bridgeStep s l).1 ls).2 := rfl
      constructor
      · rw [hout, hfinal]
        rw [traceSids, List.flatMap_append, ← traceSids, ← traceSids, hstep, ihs]
        have harith : (runBridge (bridgeStep s l).1 ls).1.counter - s.counter =
            ((bridgeStep s l).1.counter - s.counter) +
            ((runBridge (bridgeStep s l).1 ls).1.counter -
              (bridgeStep s l).1.counter) := by omega
        rw [harith, List.range_add, List.map_append, List.map_map]
        congr 1
        apply List.map_congr_left
        intro x _
        simp only [Function.comp_apply]
        congr 1
        omega
      · rw [hfinal]
        exact le_trans hle1 hle2

/-! ## Claim theorem: monotonic, never-reused snapshot ids (C3) -/

/-- Claim C3: over any request trace (resets included), the snapshot ids the
backend issues are exactly `S<n>` for consecutive counter values in issuance
order — so the numbers strictly increase, no id is ever issued twice, and a
`world_reset` between issuances still allocates a fresh id. -/
theorem snapshot_ids_strictly_increasing_never_reused
    (s : Session) (lines : List BridgeLine) :
    ∃ m, traceSids (runBridge s lines).2 =
        (List.range m).map (fun i => mkSid (s.counter + 1 + i)) ∧
      (traceSids (runBridge s lines).2).Nodup ∧
      (traceSids (runBridge s lines).2).Pairwise
        (fun a b => ∃ x y, a = mkSid x ∧ b = mkSid y ∧ x < y) := by
  obtain ⟨h1, _⟩ := runBridge_sids_eq lines s
  refine ⟨(runBridge s lines).1.counter - s.counter, h1, ?_, ?_⟩
  · rw [h1]
    refine List.Nodup.map ?_ (List.nodup_range _)
    intro a b hab
    have := mkSid_inj hab
    omega
  · rw [h1, List.pairwise_map]
    refine (List.pairwise_lt_range _).imp ?_
    intro a b hab
    exact ⟨s.counter + 1 + a, s.counter + 1 + b, rfl, rfl, by omega⟩

/-! ## Helper lemmas about the snapshot store (C10) -/

theorem storeGet_isSome_of_mem {snaps : List (String × Snapshot)} {k : String}
    (h : k ∈ snaps.map Prod.fst) : ∃ snap, storeGet snaps k = some snap := by
  induction snaps with
  | nil => simp at h
  | cons p rest ih =>
      by_cases hk : p.1 = k
      · exact ⟨p.2, by simp [storeGet, hk]⟩
      · have hmem : k ∈ rest.map Prod.fst := by
          simp only [List.map_cons, List.mem_cons] at h
          rcases h with h | h
          · exact absurd h.symm hk
          · exact h
        obtain ⟨snap, hs⟩ := ih hmem
        exact ⟨snap, by simp [storeGet, hk, hs]⟩

theorem bridgeStep_store_mono (s : Session) (l : BridgeLine) :
    (∀ k ∈ storeKeys s, k ∈ storeKeys (bridgeStep s l).1) ∧
    (∀ sid ∈ traceSids (bridgeStep s l).2, sid ∈ storeKeys (bridgeStep s l).1) := by
  cases l with
  | blank => exact ⟨fun k hk => hk, by simp [bridgeStep, traceSids]⟩
  | badJson m => exact ⟨fun k hk => hk, by simp [bridgeStep, traceSids, respSids]⟩
  | request r =>
      cases r with
      | reset seed =>
          match seed with
          | none =>
              constructor
              · intro k hk
                simp only [bridgeStep, world_reset, storeKeys, List.map_cons]
                exact List.mem_cons_of_mem _ hk
              · intro sid hsid
                simp only [bridgeStep, traceSids, respSids, world_reset,
                  List.flatMap_cons, List.flatMap_nil, List.append_nil,
                  List.mem_singleton] at hsid
                simp only [bridgeStep, world_reset, storeKeys, List.map_cons, hsid]
                exact List.mem_cons_self _ _
          | some (.intVal n) =>
              constructor
              · intro k hk
                simp only [bridgeStep, world_reset, storeKeys, List.map_cons]
                exact List.mem_cons_of_mem _ hk
              · intro sid hsid
                simp only [bridgeStep, traceSids, respSids, world_reset,
                  List.flatMap_cons, List.flatMap_nil, List.append_nil,
                  List.mem_singleton] at hsid
                simp only [bridgeStep, world_reset, storeKeys, List.map_cons, hsid]
                exact List.mem_cons_self _ _
          | some .notInt =>
              exact ⟨fun k hk => hk, by simp [bridgeStep, traceSids, respSids]⟩
      | observe =>
          constructor
          · intro k hk
            simp only [bridgeStep, storeKeys, List.map_cons]
            exact List.mem_cons_of_mem _ hk
          · intro sid hsid
            simp only [bridgeStep, traceSids, respSids, world_observe_compact,
              List.flatMap_cons, List.flatMap_nil, List.append_nil,
              List.mem_singleton] at hsid
            simp only [bridgeStep, storeKeys, List.map_cons, hsid]
            exact List.mem_cons_self _ _
      | observeDiff f t =>
          exact ⟨fun k hk => hk, by simp [bridgeStep, traceSids, respSids]⟩
      | mutate dv b =>
          match b with
          | some .notList =>
              exact ⟨fun k hk => hk, by simp [bridgeStep, traceSids, respSids]⟩
          | none =>
              by_cases hv : (dv.getD "") ≠ DSL_VERSION
              · constructor
                · intro k hk
                  simpa [bridgeStep, world_mutate, hv] using hk
                · simp [bridgeStep, traceSids, respSids, world_mutate, hv]
              · constructor
                · intro k hk
                  simp only [bridgeStep, world_mutate, if_neg hv, storeKeys,
                    Option.getD_none, Option.getD_some, List.map_cons]
                  exact List.mem_cons_of_mem _ hk
                · intro sid hsid
                  simp only [bridgeStep, traceSids, respSids, world_mutate,
                    if_neg hv, Option.getD_none, Option.getD_some,
                    List.flatMap_cons, List.flatMap_nil,
                    List.append_nil, List.mem_singleton] at hsid
                  simp only [bridgeStep, world_mutate, if_neg hv, storeKeys,
                    Option.getD_none, Option.getD_some, List.map_cons, hsid]
                  exact List.mem_cons_self _ _
          | some (.list items) =>
              by_cases hv : (dv.getD "") ≠ DSL_VERSION
              · constructor
                · intro k hk
                  simpa [bridgeStep, world_mutate, hv] using hk
                · simp [bridgeStep, traceSids, respSids, world_mutate, hv]
              · constructor
                · intro k hk
                  simp only [bridgeStep, world_mutate, if_neg hv, storeKeys,
                    Option.getD_none, Option.getD_some, List.map_cons]
                  exact List.mem_cons_of_mem _ hk
                · intro sid hsid
                  simp only [bridgeStep, traceSids, respSids, world_mutate,
                    if_neg hv, Option.getD_none, Option.getD_some,
                    List.flatMap_cons, List.flatMap_nil,
                    List.append_nil, List.mem_singleton] at hsid
                  simp only [bridgeStep, world_mutate, if_neg hv, storeKeys,
                    Option.getD_none, Option.getD_some, List.map_cons, hsid]
                  exact List.mem_cons_self _ _
      | other tool =>
          exact ⟨fun k hk => hk, by simp [bridgeStep, traceSids, respSids]⟩

theorem runBridge_store_mono (lines : List BridgeLine) : ∀ s : Session,
    (∀ k ∈ storeKeys s, k ∈ storeKeys (runBridge s lines).1) ∧
    (∀ sid ∈ traceSids (runBridge s lines).2, sid ∈ storeKeys (runBridge s lines).1) := by
  induction lines with
  | nil =>
      intro s
      exact ⟨fun k hk => hk, by simp [runBridge, traceSids]⟩
  | cons l ls ih =>
      intro s
      obtain ⟨hm1, hs1⟩ := bridgeStep_store_mono s l
      obtain ⟨hm2, hs2⟩ := ih (bridgeStep s l).1
      have hfinal : (runBridge s (l :: ls)).1 = (runBridge (bridgeStep s l).1 ls).1 := rfl
      have hout : (runBridge s (l :: ls)).2 =
          (bridgeStep s l).2 ++ (runBridge (bridgeStep s l).1 ls).2 := rfl
      constructor
      · intro k hk
        rw [hfinal]
        exact hm2 k (hm1 k hk)
      · intro sid hsid
        rw [hout, traceSids, List.flatMap_append, ← traceSids, ← traceSids,
          List.mem_append] at hsid
        rw [hfinal]
        rcases hsid with hsid | hsid
        · exact hm2 sid (hs1 sid hsid)
        · exact hs2 sid hsid

/-! ## Claim theorem: returned ids are already stored (C10) -/

/-- Claim C10: any snapshot id returned over a trace is recorded in the store
by the end of the trace (the store is append-only, so in particular it was
recorded at the moment of return), and a subsequent `world.observe_diff`
request over any two previously returned ids answers with `ok = true`. -/
theorem returned_ids_resolvable (s0 : Session) (lines : List BridgeLine)
    (x y : String)
    (hx : x ∈ traceSids (runBridge s0 lines).2)
    (hy : y ∈ traceSids (runBridge s0 lines).2) :
    (∃ sx, storeGet (runBridge s0 lines).1.snapshots x = some sx) ∧
    (∃ sy, storeGet (runBridge s0 lines).1.snapshots y = some sy) ∧
    (∃ d : DiffResult, d.okFlag = true ∧
      bridgeStep (runBridge s0 lines).1 (.request (.observeDiff (some x) (some y))) =
        ((runBridge s0 lines).1, [.diffR d])) := by
  obtain ⟨_, hsids⟩ := runBridge_store_mono lines s0
  obtain ⟨sx, hgx⟩ := storeGet_isSome_of_mem (hsids x hx)
  obtain ⟨sy, hgy⟩ := storeGet_isSome_of_mem (hsids y hy)
  refine ⟨⟨sx, hgx⟩, ⟨sy, hgy⟩,
    world_observe_diff (runBridge s0 lines).1.snapshots x y, ?_, ?_⟩
  · unfold world_observe_diff
    rw [hgx, hgy]
    rfl
  · rfl

/-- Witness for C10: two observes issue `S1` and `S2`; both resolve and diff. -/
theorem returned_ids_resolvable_witness :
    (mkSid 1 ∈ traceSids
      (runBridge initialSession [.request .observe, .request .observe]).2) ∧
    (mkSid 2 ∈ traceSids
      (runBridge initialSession [.request .observe, .request .observe]).2) ∧
    (∃ sx, storeGet
      (runBridge initialSession [.request .observe, .request .observe]).1.snapshots
      (mkSid 1) = some sx) := by
  have hx : mkSid 1 ∈ traceSids
      (runBridge initialSession [.request .observe, .request .observe]).2 := by
    simp [runBridge, bridgeStep, traceSids, respSids, world_observe_compact,
      initialSession]
  have hy : mkSid 2 ∈ traceSids
      (runBridge initialSession [.request .observe, .request .observe]).2 := by
    simp [runBridge, bridgeStep, traceSids, respSids, world_observe_compact,
      initialSession]
  exact ⟨hx, hy,
    (returned_ids_resolvable initialSession [.request .observe, .request .observe]
      (mkSid 1) (mkSid 2) hx hy).1⟩

/-! ## Helper lemmas about in-place object updates (C9) -/

theorem modifyFirst_length {α : Type} (p : α → Bool) (f : α → α) (l : List α) :
    (modifyFirst p f l).length = l.length := by
  induction l with
  | nil => rfl
  | cons x xs ih =>
      by_cases h : p x
      · simp [modifyFirst, h]
      · simp [modifyFirst, h, ih]

theorem modifyFirst_getElem?_or {α : Type} (p : α → Bool) (f : α → α)
    (l : List α) (j : Nat) :
    (modifyFirst p f l)[j]? = l[j]? ∨
    (modifyFirst p f l)[j]? = (l[j]?).map f := by
  induction l generalizing j with
  | nil => exact Or.inl rfl
  | cons x xs ih =>
      by_cases h : p x
      · simp only [modifyFirst, if_pos h]
        cases j with
        | zero =>
            right
            simp
        | succ n =>
            left
            simp
      · simp only [modifyFirst, if_neg h]
        cases j with
        | zero =>
            left
            simp
        | succ n =>
            simpa using ih n

theorem modifyFirst_getElem?_of_not {α : Type} (p : α → Bool) (f : α → α)
    (l : List α) (j : Nat) (a : α)
    (ha : l[j]? = some a) (h : p a = false) :
    (modifyFirst p f l)[j]? = some a := by
  induction l generalizing j with
  | nil => cases ha
  | cons x xs ih =>
      by_cases hx : p x
      · simp only [modifyFirst, if_pos hx]
        cases j with
        | zero =>
            exfalso
            simp only [List.getElem?_cons_zero, Option.some.injEq] at ha
            rw [← ha] at h
            rw [hx] at h
            cases h
        | succ n =>
            simp only [List.getElem?_cons_succ] at ha ⊢
            exact ha
      · simp only [modifyFirst, if_neg hx]
        cases j with
        | zero =>
            simpa using ha
        | succ n =>
            simp only [List.getElem?_cons_succ] at ha ⊢
            exact ih n ha

/-- The frame effect the set-transform claim asserts, phrased as a relation
between the scene before and after the op: everything except the transform
fields present in `args` on the named object is unchanged. -/
def PartialUpdate (args : OpArgs) (sc sc' : Scene) : Prop :=
  sc'.sceneName = sc.sceneName ∧
  sc'.frame_start = sc.frame_start ∧
  sc'.frame_end = sc.frame_end ∧
  sc'.frame_current = sc.frame_current ∧
  sc'.masterCollection = sc.masterCollection ∧
  sc'.collections = sc.collections ∧
  sc'.objects.length = sc.objects.length ∧
  ∀ (j : Nat) (o : SceneObject), sc.objects[j]? = some o →
    ∃ o', sc'.objects[j]? = some o' ∧
      (o.name ≠ args.name.getD "" → o' = o) ∧
      o'.name = o.name ∧
      o'.otype = o.otype ∧
      o'.users_collection = o.users_collection ∧
      (args.location = none → o'.location = o.location) ∧
      (args.rotation_euler = none → o'.rotation_euler = o.rotation_euler) ∧
      (args.scale = none → o'.scale = o.scale)

theorem partialUpdate_refl (args : OpArgs) (sc : Scene) : PartialUpdate args sc sc := by
  refine ⟨rfl, rfl, rfl, rfl, rfl, rfl, rfl, ?_⟩
  intro j o ho
  exact ⟨o, ho, fun _ => rfl, rfl, rfl, rfl, fun _ => rfl, fun _ => rfl, fun _ => rfl⟩

theorem partialUpdate_trans (args : OpArgs) (sc1 sc2 sc3 : Scene)
    (h12 : PartialUpdate args sc1 sc2) (h23 : PartialUpdate args sc2 sc3) :
    PartialUpdate args sc1 sc3 := by
  obtain ⟨a1, b1, c1, d1, e1, f1, g1, h1⟩ := h12
  obtain ⟨a2, b2, c2, d2, e2, f2, g2, h2⟩ := h23
  refine ⟨a2.trans a1, b2.trans b1, c2.trans c1, d2.trans d1, e2.trans e1,
    f2.trans f1, g2.trans g1, ?_⟩
  intro j o ho
  obtain ⟨o1, ho1, p1, q1, r1, s1, t1, u1, v1⟩ := h1 j o ho
  obtain ⟨o2, ho2, p2, q2, r2, s2, t2, u2, v2⟩ := h2 j o1 ho1
  refine ⟨o2, ho2, ?_, q2.trans q1, r2.trans r1, s2.trans s1, ?_, ?_, ?_⟩
  · intro hne
    have hne1 : o1.name ≠ args.name.getD "" := by
      rw [q1]
      exact hne
    rw [p2 hne1, p1 hne]
  · intro hn
    rw [t2 hn, t1 hn]
  · intro hn
    rw [u2 hn, u1 hn]
  · intro hn
    rw [v2 hn, v1 hn]

theorem partialUpdate_applyField (args : OpArgs) (sc : Scene)
    (fld : Option (List ℚ)) (set : SceneObject → Vec3 → SceneObject)
    (get : SceneObject → Vec3)
    (hname : ∀ o v, (set o v).name = o.name)
    (hotype : ∀ o v, (set o v).otype = o.otype)
    (husers : ∀ o v, (set o v).users_collection = o.users_collection)
    (hlocP : args.location = none →
      (fld = none ∨ ∀ o v, (set o v).location = o.location))
    (hrotP : args.rotation_euler = none →
      (fld = none ∨ ∀ o v, (set o v).rotation_euler = o.rotation_euler))
    (hscaP : args.scale = none →
      (fld = none ∨ ∀ o v, (set o v).scale = o.scale)) :
    PartialUpdate args sc (applyField sc (args.name.getD "") fld set get).1 := by
  cases hf : fld with
  | none => exact partialUpdate_refl args sc
  | some l =>
      refine ⟨rfl, rfl, rfl, rfl, rfl, rfl, modifyFirst_length _ _ _, ?_⟩
      intro j o ho
      have hor := modifyFirst_getElem?_or (fun o => o.name = args.name.getD "")
        (fun o => set o (setVec3 (get o) l)) sc.objects j
      rw [ho] at hor
      have hmis : o.name ≠ args.name.getD "" →
          (modifyFirst (fun o => o.name = args.name.getD "")
            (fun o => set o (setVec3 (get o) l)) sc.objects)[j]? = some o := by
        intro hne
        exact modifyFirst_getElem?_of_not _ _ sc.objects j o ho (by simpa using hne)
      rcases hor with h | h
      · refine ⟨o, h, fun _ => rfl, rfl, rfl, rfl, fun _ => rfl, fun _ => rfl,
          fun _ => rfl⟩
      · simp only [Option.map_some'] at h
        refine ⟨set o (setVec3 (get o) l), h, ?_, hname o _, hotype o _,
          husers o _, ?_, ?_, ?_⟩
        · intro hne
          have := hmis hne
          rw [h] at this
          exact (Option.some.injEq _ _ ▸ this)
        · intro hn
          rcases hlocP hn with hc | hpres
          · rw [hf] at hc
            cases hc
          · exact hpres o _
        · intro hn
          rcases hrotP hn with hc | hpres
          · rw [hf] at hc
            cases hc
          · exact hpres o _
        · intro hn
          rcases hscaP hn with hc | hpres
          · rw [hf] at hc
            cases hc
          · exact hpres o _

theorem partialUpdate_step_loc (args : OpArgs) (sc : Scene) :
    PartialUpdate args sc
      (applyField sc (args.name.getD "") args.location
        (fun o v => { o with location := v }) (·.location)).1 :=
  partialUpdate_applyField args sc args.location _ _
    (fun _ _ => rfl) (fun _ _ => rfl) (fun _ _ => rfl)
    (fun hn => Or.inl hn) (fun _ => Or.inr (fun _ _ => rfl))
    (fun _ => Or.inr (fun _ _ => rfl))

theorem partialUpdate_step_rot (args : OpArgs) (sc : Scene) :
    PartialUpdate args sc
      (applyField sc (args.name.getD "") args.rotation_euler
        (fun o v => { o with rotation_euler := v }) (·.rotation_euler)).1 :=
  partialUpdate_applyField args sc args.rotation_euler _ _
    (fun _ _ => rfl) (fun _ _ => rfl) (fun _ _ => rfl)
    (fun _ => Or.inr (fun _ _ => rfl)) (fun hn => Or.inl hn)
    (fun _ => Or.inr (fun _ _ => rfl))

theorem partialUpdate_step_sca (args : OpArgs) (sc : Scene) :
    PartialUpdate args sc
      (applyField sc (args.name.getD "") args.scale
        (fun o v => { o with scale := v }) (·.scale)).1 :=
  partialUpdate_applyField args sc args.scale _ _
    (fun _ _ => rfl) (fun _ _ => rfl) (fun _ _ => rfl)
    (fun _ => Or.inr (fun _ _ => rfl)) (fun _ => Or.inr (fun _ _ => rfl))
    (fun hn => Or.inl hn)

theorem dsl_object_set_transform_partialUpdate (args : OpArgs) (sc : Scene) :
    PartialUpdate args sc (dsl_object_set_transform args sc).1 := by
  simp only [dsl_object_set_transform]
  split
  · exact partialUpdate_refl args sc
  · split
    · exact partialUpdate_step_loc args sc
    · split
      · exact partialUpdate_trans args sc _ _
          (partialUpdate_step_loc args sc) (partialUpdate_step_rot args _)
      · split
        · exact partialUpdate_trans args sc _ _
            (partialUpdate_trans args sc _ _
              (partialUpdate_step_loc args sc) (partialUpdate_step_rot args _))
            (partialUpdate_step_sca args _)
        · exact partialUpdate_trans args sc _ _
            (partialUpdate_trans args sc _ _
              (partialUpdate_step_loc args sc) (partialUpdate_step_rot args _))
            (partialUpdate_step_sca args _)

/-! ## Claim theorem: partial set-transform updates (C9) -/

/-- Claim C9: an `object.set_transform` op modifies only the transform fields
present in `args` on the named object: every absent field of that object keeps
its value (even when a malformed present field raises midway), every object
with a different name is untouched, and the rest of the scene (collections
included) is unchanged. -/
theorem set_transform_only_touches_present_fields
    (sc : Scene) (args : OpArgs) (j : Nat) (o : SceneObject)
    (ho : sc.objects[j]? = some o) :
    ((dsl_object_set_transform args sc).1).objects.length = sc.objects.length ∧
    ((dsl_object_set_transform args sc).1).collections = sc.collections ∧
    ∃ o', ((dsl_object_set_transform args sc).1).objects[j]? = some o' ∧
      (o.name ≠ args.name.getD "" → o' = o) ∧
      o'.name = o.name ∧
      o'.otype = o.otype ∧
      o'.users_collection = o.users_collection ∧
      (args.location = none → o'.location = o.location) ∧
      (args.rotation_euler = none → o'.rotation_euler = o.rotation_euler) ∧
      (args.scale = none → o'.scale = o.scale) := by
  obtain ⟨_, _, _, _, _, hcoll, hlen, hidx⟩ :=
    dsl_object_set_transform_partialUpdate args sc
  exact ⟨hlen, hcoll, hidx j o ho⟩

/-- Witness for C9: update only `A`'s location in a two-object scene; the
object at index 1 is `B`. -/
theorem set_transform_only_touches_present_fields_witness :
    (demoSceneAB.objects[1]? = some
      { name := "B"
        otype := "MESH"
        location := ⟨7, 8, 9⟩
        rotation_euler := ⟨0, 0, 0⟩
        scale := ⟨1, 1, 1⟩
        users_collection := ["Scene Collection"] }) ∧
    (((dsl_object_set_transform demoTransformArgs demoSceneAB).1).objects.length =
       demoSceneAB.objects.length ∧
     ((dsl_object_set_transform demoTransformArgs demoSceneAB).1).collections =
       demoSceneAB.collections ∧
     ∃ o', ((dsl_object_set_transform demoTransformArgs demoSceneAB).1).objects[1]? =
         some o' ∧
       (SceneObject.name
          { name := "B"
            otype := "MESH"
            location := ⟨7, 8, 9⟩
            rotation_euler := ⟨0, 0, 0⟩
            scale := ⟨1, 1, 1⟩
            users_collection := ["Scene Collection"] } ≠
          demoTransformArgs.name.getD "" → o' =
            { name := "B"
              otype := "MESH"
              location := ⟨7, 8, 9⟩
              rotation_euler := ⟨0, 0, 0⟩
              scale := ⟨1, 1, 1⟩
              users_collection := ["Scene Collection"] }) ∧
       o'.name = SceneObject.name
          { name := "B"
            otype := "MESH"
            location := ⟨7, 8, 9⟩
            rotation_euler := ⟨0, 0, 0⟩
            scale := ⟨1, 1, 1⟩
            users_collection := ["Scene Collection"] } ∧
       o'.otype = "MESH" ∧
       o'.users_collection = ["Scene Collection"] ∧
       (demoTransformArgs.location = none → o'.location = ⟨7, 8, 9⟩) ∧
       (demoTransformArgs.rotation_euler = none → o'.rotation_euler = ⟨0, 0, 0⟩) ∧
       (demoTransformArgs.scale = none → o'.scale = ⟨1, 1, 1⟩)) := by
  refine ⟨rfl, ?_⟩
  exact set_transform_only_touches_present_fields demoSceneAB demoTransformArgs 1
    { name := "B"
      otype := "MESH"
      location := ⟨7, 8, 9⟩
      rotation_euler := ⟨0, 0, 0⟩
      scale := ⟨1, 1, 1⟩
      users_collection := ["Scene Collection"] } rfl

end Torr
